import Mathlib

/-!
Shallow embedding of the football-video analysis pipeline
(`src/utils/detectors.py`, `src/utils/trackers.py`, `src/utils/processor.py`).

Conventions of the embedding:
* Pixel coordinates are rationals (`ℚ`); the Python code uses floats, but every
  claim under study concerns order comparisons and exact copies of positions,
  which floats and rationals decide identically on the inputs involved.
* Euclidean distances are compared through their squares (`dist2`): for
  nonnegative reals, `sqrt` is strictly monotone, so `‖a‖ < ‖b‖ ↔ ‖a‖² < ‖b‖²`,
  and the code only ever compares distances (never uses their magnitudes).
* `numpy.mean` of an empty selection is NaN, and every comparison against NaN
  is `False`. We model a possibly-NaN quantity as an `Option`: `none` is NaN,
  and the NaN comparison semantics is `ltNan`.
-/

/-- A 2-D point in pixel space. -/
abbrev Pt : Type := ℚ × ℚ

/-- Squared Euclidean distance between two points.  The Python code compares
`np.linalg.norm` values; comparing squares is equivalent since squaring is
strictly monotone on nonnegative reals. -/
def dist2 (p q : Pt) : ℚ :=
  (p.1 - q.1) * (p.1 - q.1) + (p.2 - q.2) * (p.2 - q.2)

/-- An axis-aligned bounding box `(x1, y1, x2, y2)`, as produced by the
detection source. -/
structure Box where
  x1 : ℚ
  y1 : ℚ
  x2 : ℚ
  y2 : ℚ
deriving DecidableEq, Repr

/-- `sv.Position.BOTTOM_CENTER` anchor of a box. -/
def bottomCenter (b : Box) : Pt :=
  ((b.x1 + b.x2) / 2, b.y2)

/-- `sv.Position.CENTER` anchor of a box. -/
def centerAnchor (b : Box) : Pt :=
  ((b.x1 + b.x2) / 2, (b.y1 + b.y2) / 2)

/-- A detection: bounding box plus class id (`utils/detectors.py` constants
below).  Confidence plays no role in the claims once the detector has applied
its threshold, so it is not carried. -/
structure Det where
  box : Box
  classId : ℕ
deriving DecidableEq, Repr

/-- `BALL_ID = 0` from `utils/detectors.py`. -/
def BALL_ID : ℕ := 0

/-- `GOALKEEPER_ID = 1` from `utils/detectors.py`. -/
def GOALKEEPER_ID : ℕ := 1

/-- `PLAYER_ID = 2` from `utils/detectors.py`. -/
def PLAYER_ID : ℕ := 2

/-- `REFEREE_ID = 3` from `utils/detectors.py`. -/
def REFEREE_ID : ℕ := 3

/-! ## Goalkeeper-team resolver (`resolve_goalkeepers_team_id`) -/

/-- Mean of a list of points; `none` when the list is empty, mirroring that
`numpy.mean` of an empty axis-0 selection is NaN. -/
def meanPt (pts : List Pt) : Option Pt :=
  match pts with
  | [] => none
  | _ :: _ =>
      some ((pts.map Prod.fst).sum / pts.length, (pts.map Prod.snd).sum / pts.length)

/-- `players_xy[players.class_id == team].mean(axis=0)`: the centroid of the
bottom-center anchors of the players carrying team label `team`; `none` (NaN)
when that team has no labeled players. -/
def teamCentroid (players : List Det) (team : ℕ) : Option Pt :=
  meanPt ((players.filter (fun p => p.classId = team)).map (fun p => bottomCenter p.box))

/-- numpy comparison semantics with NaN: `a < b` is `False` whenever either
side is NaN (`none`). -/
def ltNan (a b : Option ℚ) : Bool :=
  match a, b with
  | some x, some y => decide (x < y)
  | _, _ => false

/-- The body of the loop in `resolve_goalkeepers_team_id`: distance from the
goalkeeper anchor to each centroid (NaN when the centroid is undefined), then
`0 if dist_0 < dist_1 else 1`. -/
def gkLabel (c0 c1 : Option Pt) (gk : Pt) : ℕ :=
  let dist_0 : Option ℚ := c0.map (fun c => dist2 gk c)
  let dist_1 : Option ℚ := c1.map (fun c => dist2 gk c)
  if ltNan dist_0 dist_1 then 0 else 1

/-- `resolve_goalkeepers_team_id(players, goalkeepers)` from
`src/utils/processor.py` lines 15–38: compute both team centroids from the
players' bottom-center anchors and give each goalkeeper the label of the
strictly nearer centroid (label 1 when not strictly nearer to team 0). -/
def resolve_goalkeepers_team_id (players goalkeepers : List Det) : List ℕ :=
  let team_0_centroid := teamCentroid players 0
  let team_1_centroid := teamCentroid players 1
  goalkeepers.map (fun g => gkLabel team_0_centroid team_1_centroid (bottomCenter g.box))

example :
    resolve_goalkeepers_team_id
      [⟨⟨0, 0, 0, 0⟩, 0⟩, ⟨⟨100, 100, 100, 100⟩, 1⟩]
      [⟨⟨5, 5, 5, 5⟩, GOALKEEPER_ID⟩, ⟨⟨95, 95, 95, 95⟩, GOALKEEPER_ID⟩] = [0, 1] := by
  norm_num [resolve_goalkeepers_team_id, teamCentroid, meanPt, gkLabel, ltNan, dist2,
    bottomCenter, List.filter, GOALKEEPER_ID]

/-! ## Ball tracker (`utils/trackers.py`, class `BallTracker`) -/

/-- The mutable state of `BallTracker`: `self.buffer` (a
`collections.deque(maxlen=buffer_size)`, held here oldest-first, i.e. in
chronological iteration order) and `self.last_position`. -/
structure BallTrackerState where
  bufferSize : ℕ
  buffer : List Pt
  lastPosition : Option Pt
deriving DecidableEq, Repr

/-- `BallTracker.__init__(buffer_size)` (also the state after `reset()`):
empty deque, no last position. -/
def BallTracker.mk0 (bufferSize : ℕ) : BallTrackerState :=
  ⟨bufferSize, [], none⟩

/-- `deque(maxlen=n).append(x)`: append on the right, evicting from the left
once the length exceeds `n`. -/
def dequeAppend (n : ℕ) (buf : List Pt) (x : Pt) : List Pt :=
  let b := buf ++ [x]
  b.drop (b.length - n)

/-- First index of the minimum of `f`, mirroring `np.argmin` applied to the
list of distances: a later element replaces the current best only on a
strictly smaller value. Returns the chosen element itself. -/
def argminBy (f : Pt → ℚ) (best : Pt) : List Pt → Pt
  | [] => best
  | x :: xs => if f x < f best then argminBy f x xs else argminBy f best xs

/-- `BallTracker.update(detections)` from `utils/trackers.py` lines 19–42.
Returns the pair (returned position, new state): `None` and the unchanged
state on zero detections; otherwise the adopted `CENTER` anchor (first
candidate when `last_position` is `None`, else the candidate at the
`np.argmin` of the Euclidean distances to `last_position`), appended to the
deque. -/
def BallTracker.update (s : BallTrackerState) (detections : List Det) :
    Option Pt × BallTrackerState :=
  match detections with
  | [] => (none, s)
  | d :: ds =>
      let newPos : Pt :=
        match s.lastPosition with
        | none => centerAnchor d.box
        | some lp => argminBy (fun p => dist2 p lp) (centerAnchor d.box)
            (ds.map (fun det => centerAnchor det.box))
      (some newPos,
        { s with lastPosition := some newPos,
                 buffer := dequeAppend s.bufferSize s.buffer newPos })

/-- `N` consecutive calls of `BallTracker.update`, each carrying the same
single detection `d` (the scenario of the trail-buffer claim). -/
def BallTracker.updateN (s : BallTrackerState) (d : Det) : ℕ → BallTrackerState
  | 0 => s
  | n + 1 => (BallTracker.update (BallTracker.updateN s d n) [d]).2

example :
    (BallTracker.update (BallTracker.mk0 30) []).1 = none := rfl

example :
    (BallTracker.updateN (BallTracker.mk0 3) ⟨⟨0, 0, 2, 2⟩, BALL_ID⟩ 5).buffer
      = [(1, 1), (1, 1), (1, 1)] := by
  norm_num [BallTracker.updateN, BallTracker.update, BallTracker.mk0, dequeAppend,
    centerAnchor, argminBy, dist2]

/-! ## Crop collection and classifier training (`create_team_classifier`) -/

/-- The crop-collection loop of `create_team_classifier`
(`src/utils/processor.py` lines 54–64), with the external pieces as inputs:
the strided frame generator is represented by the list of per-frame detection
sets it yields (one entry per sampled frame), and `Detections.with_nms`
(an external `supervision` routine) by the function `nms`.  Each iteration
keeps the player-class detections of the frame, appends their crops
(represented by their boxes), and breaks once `len(crops) >= max_crops`. -/
def collectCrops (nms : List Det → List Det) (maxCrops : ℕ) :
    List (List Det) → List Box → List Box
  | [], crops => crops
  | f :: fs, crops =>
      let players := (nms f).filter (fun d => d.classId = PLAYER_ID)
      let crops := crops ++ players.map (fun d => d.box)
      if maxCrops ≤ crops.length then crops
      else collectCrops nms maxCrops fs crops

/-- Modelled from the spec: `TeamClassifier.fit` lives in the external
`sports.common.team` package, outside this repository; the spec fixes its
failure semantics — "fitting with zero crops must fail explicitly rather
than silently produce an unusable classifier" (TrainingDataInsufficient).
The trained classifier itself is irrelevant to the claims, so a successful
fit returns `()`. -/
def TeamClassifier.fit (crops : List Box) : Except String Unit :=
  match crops with
  | [] => Except.error "TrainingDataInsufficient"
  | _ :: _ => Except.ok ()

/-- `create_team_classifier` (`src/utils/processor.py` lines 41–70): collect
crops from the strided sample and fit the team classifier on them; the fitted
classifier is summarized by the crop list it was trained on. -/
def create_team_classifier (nms : List Det → List Det) (maxCrops : ℕ)
    (sampleFrames : List (List Det)) : Except String (List Box) :=
  let crops := collectCrops nms maxCrops sampleFrames []
  match TeamClassifier.fit crops with
  | Except.error e => Except.error e
  | Except.ok _ => Except.ok crops

/-! ## Frame pipeline orchestrator (`process_video`) -/

/-- The running statistics dictionary of `process_video`
(`src/utils/processor.py` lines 173–181), field names as in the source. -/
structure Stats where
  frames_procesados : ℕ
  jugadores_equipo_0 : ℕ
  jugadores_equipo_1 : ℕ
  porteros_detectados : ℕ
  arbitros_detectados : ℕ
  detecciones_balon : ℕ
  total_detecciones : ℕ
deriving DecidableEq, Repr

/-- All counters start at zero. -/
def initStats : Stats :=
  ⟨0, 0, 0, 0, 0, 0, 0⟩

/-- `sv.pad_boxes(..., px)` applied to one box: grow it by `px` pixels on
every side. -/
def padBox (px : ℚ) (b : Box) : Box :=
  ⟨b.x1 - px, b.y1 - px, b.x2 + px, b.y2 + px⟩

/-- Box padding lifted to a detection (class id unchanged). -/
def padDet (px : ℚ) (d : Det) : Det :=
  ⟨padBox px d.box, d.classId⟩

/-- The external collaborators `process_video` consumes, by their effect on
one frame: `trackerUpdate` is `sv.ByteTrack.update_with_detections`;
`classifierPredict` is `team_classifier.predict` on the crops of the frame's
players; `nmsBall` is `Detections.with_nms(threshold=0.1)`; `ballYolo` is the
optional specialized ball detector — `none` when the model is absent (falsy),
`some (Except.error ())` when its `predict` raises on this frame, and
`some (Except.ok bdets)` when it returns detections `bdets`. -/
structure Collaborators where
  trackerUpdate : List Det → List Det
  classifierPredict : List Box → List ℕ
  nmsBall : List Det → List Det
  ballYolo : Option (Except Unit (List Det))

/-- What one loop iteration of `process_video` did, beyond the state it
threads: the detection set handed to `tracker.update_with_detections`
(`none` when the frame was skipped by the `len(detections) == 0` early
`continue`), the ball detections handed to `ball_tracker.update` (`none`
when that stage never ran), and the returned ball position. -/
structure FrameResult where
  handedToTracker : Option (List Det)
  ballDetectionsUsed : Option (List Det)
  ballPosition : Option Pt
  stats : Stats
  ballState : BallTrackerState

/-- One iteration of the frame loop of `process_video`
(`src/utils/processor.py` lines 191–313), faithful to the statistics and
state dataflow; pure rendering (annotators, `putText`, `sink.write_frame`)
is omitted as presentation.  Mirrors the source order: increment
`frames_procesados`; on zero detections write the raw frame and `continue`
(skipping every later stage); otherwise count detections, run the tracker,
build `ball_detections` by the `ball_yolo` branch (specialized detector,
bare-`except` fallback to the general detector's ball class, or the padded
general ball class when the model is absent), update the ball tracker and
its counter, split the tracked detections by class, and count the
classifier's team labels when players are present. -/
def frameStep (co : Collaborators) (st : Stats) (bt : BallTrackerState)
    (dets : List Det) : FrameResult :=
  let st := { st with frames_procesados := st.frames_procesados + 1 }
  match dets with
  | [] =>
      { handedToTracker := none, ballDetectionsUsed := none, ballPosition := none,
        stats := st, ballState := bt }
  | _ :: _ =>
      let st := { st with total_detecciones := st.total_detecciones + dets.length }
      let tracked := co.trackerUpdate dets
      let ball_detections :=
        match co.ballYolo with
        | some (Except.ok bdets) =>
            if 0 < bdets.length then co.nmsBall bdets else bdets
        | some (Except.error _) => tracked.filter (fun d => d.classId = BALL_ID)
        | none =>
            let bd := tracked.filter (fun d => d.classId = BALL_ID)
            if 0 < bd.length then bd.map (padDet 10) else bd
      let upd := BallTracker.update bt ball_detections
      let st :=
        if (upd.1).isSome then
          { st with detecciones_balon := st.detecciones_balon + 1 }
        else st
      let goalkeepers := tracked.filter (fun d => d.classId = GOALKEEPER_ID)
      let referees := tracked.filter (fun d => d.classId = REFEREE_ID)
      let players := tracked.filter (fun d => d.classId = PLAYER_ID)
      let st := { st with
        porteros_detectados := st.porteros_detectados + goalkeepers.length,
        arbitros_detectados := st.arbitros_detectados + referees.length }
      let st :=
        if 0 < players.length then
          let ids := co.classifierPredict (players.map (fun d => d.box))
          { st with
            jugadores_equipo_0 :=
              st.jugadores_equipo_0 + (ids.filter (fun i => i = 0)).length,
            jugadores_equipo_1 :=
              st.jugadores_equipo_1 + (ids.filter (fun i => i = 1)).length }
        else st
      { handedToTracker := some dets, ballDetectionsUsed := some ball_detections,
        ballPosition := upd.1, stats := st, ballState := upd.2 }

/-- The frame loop of `process_video`: fold `frameStep` over the frames'
detection sets, starting from zeroed statistics and a freshly reset
`BallTracker(buffer_size=30)`. -/
def processVideo (co : Collaborators) (frames : List (List Det)) :
    Stats × BallTrackerState :=
  frames.foldl
    (fun acc dets =>
      let r := frameStep co acc.1 acc.2 dets
      (r.stats, r.ballState))
    (initStats, BallTracker.mk0 30)

/-- The analysis flow of `src/app.py` `main`: `create_team_classifier` runs
to completion (training the classifier) before `process_video` touches any
frame; a fit failure therefore surfaces before any frame is processed. -/
def runAnalysis (co : Collaborators) (nms : List Det → List Det)
    (maxCrops : ℕ) (sampleFrames procFrames : List (List Det)) :
    Except String Stats :=
  match create_team_classifier nms maxCrops sampleFrames with
  | Except.error e => Except.error e
  | Except.ok _ => Except.ok (processVideo co procFrames).1

/-! ## Helper lemmas -/

/-- Dropping from a replicated list yields a replicated list. -/
theorem drop_replicate_eq (c : Pt) : ∀ m n : ℕ,
    (List.replicate m c).drop n = List.replicate (m - n) c := by
  intro m
  induction m with
  | zero => intro n; simp
  | succ m ih =>
      intro n
      cases n with
      | zero => simp
      | succ n => simp [List.replicate_succ, ih n]

/-- `argminBy` returns its running best or an element of the list. -/
theorem argminBy_mem (f : Pt → ℚ) : ∀ (xs : List Pt) (best : Pt),
    argminBy f best xs = best ∨ argminBy f best xs ∈ xs := by
  intro xs
  induction xs with
  | nil => intro best; left; rfl
  | cons x xs ih =>
      intro best
      by_cases h : f x < f best
      · simp only [argminBy, if_pos h]
        rcases ih x with h' | h' <;> simp [h']
      · simp only [argminBy, if_neg h]
        rcases ih best with h' | h' <;> simp [h']

/-- The value of `argminBy` minimizes `f` over the running best and the list. -/
theorem argminBy_le (f : Pt → ℚ) : ∀ (xs : List Pt) (best : Pt),
    f (argminBy f best xs) ≤ f best ∧ ∀ y ∈ xs, f (argminBy f best xs) ≤ f y := by
  intro xs
  induction xs with
  | nil => intro best; exact ⟨le_refl _, by intro y hy; cases hy⟩
  | cons x xs ih =>
      intro best
      by_cases h : f x < f best
      · have hx := ih x
        simp only [argminBy, if_pos h]
        refine ⟨le_trans hx.1 (le_of_lt h), ?_⟩
        intro y hy
        rcases List.mem_cons.mp hy with rfl | hy
        · exact hx.1
        · exact hx.2 y hy
      · have hb := ih best
        simp only [argminBy, if_neg h]
        refine ⟨hb.1, ?_⟩
        intro y hy
        rcases List.mem_cons.mp hy with rfl | hy
        · exact le_trans hb.1 (le_of_not_lt h)
        · exact hb.2 y hy

/-! ## Claim C4: the three cases of `BallTracker.update` -/

/-- C4.  For every call of `BallTracker.update`: with zero candidate
detections it returns `None` and leaves the whole tracker state — the trail
buffer included — unchanged; with candidates and no last-known position it
adopts and returns the first candidate's geometric center; with candidates
and a last-known position it adopts and returns a candidate center at
minimal (squared, equivalently plain) Euclidean distance to the last-known
position. -/
theorem ballTracker_update_cases (s : BallTrackerState) (dets : List Det) :
    (dets = [] → BallTracker.update s dets = (none, s)) ∧
    (∀ d ds, dets = d :: ds → s.lastPosition = none →
      BallTracker.update s dets =
        (some (centerAnchor d.box),
          { s with lastPosition := some (centerAnchor d.box),
                   buffer := dequeAppend s.bufferSize s.buffer (centerAnchor d.box) })) ∧
    (∀ lp, s.lastPosition = some lp → dets ≠ [] →
      ∃ m, BallTracker.update s dets =
          (some m, { s with lastPosition := some m,
                            buffer := dequeAppend s.bufferSize s.buffer m }) ∧
        m ∈ dets.map (fun det => centerAnchor det.box) ∧
        ∀ p ∈ dets.map (fun det => centerAnchor det.box), dist2 m lp ≤ dist2 p lp) := by
  refine ⟨?_, ?_, ?_⟩
  · rintro rfl; rfl
  · rintro d ds rfl hnone
    simp [BallTracker.update, hnone]
  · rintro lp hlp hne
    match dets with
    | [] => exact absurd rfl hne
    | d :: ds =>
        refine ⟨argminBy (fun p => dist2 p lp) (centerAnchor d.box)
          (ds.map (fun det => centerAnchor det.box)), ?_, ?_, ?_⟩
        · simp [BallTracker.update, hlp]
        · rw [List.map_cons]
          rcases argminBy_mem (fun p => dist2 p lp)
            (ds.map (fun det => centerAnchor det.box)) (centerAnchor d.box) with h | h
          · rw [h]; exact List.mem_cons_self _ _
          · exact List.mem_cons_of_mem _ h
        · intro p hp
          have h := argminBy_le (fun p => dist2 p lp)
            (ds.map (fun det => centerAnchor det.box)) (centerAnchor d.box)
          rw [List.map_cons] at hp
          rcases List.mem_cons.mp hp with rfl | hp'
          · exact h.1
          · exact h.2 p hp'

/-- Witness for C4: the three cases at concrete inputs — a fresh tracker with
no detections, a fresh tracker adopting the first candidate's center, and a
tracker with last position `(0, 0)` adopting a nearest candidate center. -/
theorem ballTracker_update_cases_witness :
    BallTracker.update ⟨30, [], none⟩ [] = (none, ⟨30, [], none⟩) ∧
    BallTracker.update ⟨30, [], none⟩ [⟨⟨0, 0, 2, 2⟩, BALL_ID⟩] =
      (some (centerAnchor (⟨0, 0, 2, 2⟩ : Box)),
        { bufferSize := 30,
          buffer := dequeAppend 30 [] (centerAnchor (⟨0, 0, 2, 2⟩ : Box)),
          lastPosition := some (centerAnchor (⟨0, 0, 2, 2⟩ : Box)) }) ∧
    (∃ m, BallTracker.update ⟨30, [], some ((0 : ℚ), (0 : ℚ))⟩
          [⟨⟨0, 0, 2, 2⟩, BALL_ID⟩] =
        (some m, { bufferSize := 30, buffer := dequeAppend 30 [] m,
                   lastPosition := some m }) ∧
      m ∈ [(⟨⟨0, 0, 2, 2⟩, BALL_ID⟩ : Det)].map (fun det => centerAnchor det.box) ∧
      ∀ p ∈ [(⟨⟨0, 0, 2, 2⟩, BALL_ID⟩ : Det)].map (fun det => centerAnchor det.box),
        dist2 m (0, 0) ≤ dist2 p (0, 0)) :=
  ⟨(ballTracker_update_cases ⟨30, [], none⟩ []).1 rfl,
   (ballTracker_update_cases ⟨30, [], none⟩ [⟨⟨0, 0, 2, 2⟩, BALL_ID⟩]).2.1
      ⟨⟨0, 0, 2, 2⟩, BALL_ID⟩ [] rfl rfl,
   (ballTracker_update_cases ⟨30, [], some (0, 0)⟩ [⟨⟨0, 0, 2, 2⟩, BALL_ID⟩]).2.2
      (0, 0) rfl (by simp)⟩

/-! ## Claim C5: the trail buffer under repeated identical detections -/

/-- Invariant behind the trail-buffer claim: after `n` updates with the same
single detection from a fresh `BallTracker(buffer_size=30)`, the deque holds
`min n 30` copies of the detection's center (oldest-first) and the last
position is that center as soon as `n ≥ 1`. -/
theorem updateN_buffer (d : Det) : ∀ n : ℕ,
    (BallTracker.updateN (BallTracker.mk0 30) d n).bufferSize = 30 ∧
    (BallTracker.updateN (BallTracker.mk0 30) d n).buffer
      = List.replicate (min n 30) (centerAnchor d.box) ∧
    (BallTracker.updateN (BallTracker.mk0 30) d n).lastPosition
      = (if n = 0 then none else some (centerAnchor d.box)) := by
  intro n
  induction n with
  | zero => exact ⟨rfl, rfl, rfl⟩
  | succ n ih =>
      obtain ⟨hsize, hbuf, hlast⟩ := ih
      have hstep : BallTracker.updateN (BallTracker.mk0 30) d (n + 1)
          = (BallTracker.update (BallTracker.updateN (BallTracker.mk0 30) d n) [d]).2 :=
        rfl
      have hpos : (BallTracker.update (BallTracker.updateN (BallTracker.mk0 30) d n) [d]).2
          = { BallTracker.updateN (BallTracker.mk0 30) d n with
              lastPosition := some (centerAnchor d.box),
              buffer := dequeAppend (BallTracker.updateN (BallTracker.mk0 30) d n).bufferSize
                (BallTracker.updateN (BallTracker.mk0 30) d n).buffer (centerAnchor d.box) } := by
        rcases Nat.eq_zero_or_pos n with hn | hn
        · have h0 : (BallTracker.updateN (BallTracker.mk0 30) d n).lastPosition = none := by
            rw [hlast]; simp [hn]
          simp [BallTracker.update, h0]
        · have h1 : (BallTracker.updateN (BallTracker.mk0 30) d n).lastPosition
              = some (centerAnchor d.box) := by
            rw [hlast]; simp [Nat.pos_iff_ne_zero.mp hn]
          simp [BallTracker.update, h1, argminBy]
      rw [hstep, hpos]
      refine ⟨hsize, ?_, by simp⟩
      show dequeAppend _ _ _ = _
      rw [hsize, hbuf]
      simp only [dequeAppend, ← List.replicate_succ', List.length_replicate,
        drop_replicate_eq]
      congr 1
      omega

/-- C5.  After `N ≥ 1` consecutive `BallTracker.update` calls each carrying a
single ball detection at the same position, the trail buffer (held
oldest-first, i.e. in chronological iteration order, with the oldest entries
the ones evicted at capacity 30) holds exactly `min N 30` copies of that
detection's center, and the last known position is that center. -/
theorem ballTracker_trail_buffer (d : Det) (N : ℕ) (h : 1 ≤ N) :
    (BallTracker.updateN (BallTracker.mk0 30) d N).buffer
      = List.replicate (min N 30) (centerAnchor d.box) ∧
    (BallTracker.updateN (BallTracker.mk0 30) d N).lastPosition
      = some (centerAnchor d.box) := by
  refine ⟨(updateN_buffer d N).2.1, ?_⟩
  rw [(updateN_buffer d N).2.2]
  simp [Nat.one_le_iff_ne_zero.mp h]

/-- Witness for C5 at `N = 35 > 30`: the buffer saturates at 30 copies. -/
theorem ballTracker_trail_buffer_witness :
    (1 : ℕ) ≤ 35 ∧
    ((BallTracker.updateN (BallTracker.mk0 30) ⟨⟨0, 0, 2, 2⟩, BALL_ID⟩ 35).buffer
        = List.replicate (min 35 30) (centerAnchor (⟨0, 0, 2, 2⟩ : Box)) ∧
      (BallTracker.updateN (BallTracker.mk0 30) ⟨⟨0, 0, 2, 2⟩, BALL_ID⟩ 35).lastPosition
        = some (centerAnchor (⟨0, 0, 2, 2⟩ : Box))) :=
  ⟨by decide, ballTracker_trail_buffer ⟨⟨0, 0, 2, 2⟩, BALL_ID⟩ 35 (by decide)⟩

/-! ## Claims C1, C6, C10: goalkeeper-team resolution -/

/-- The `i`-th goalkeeper's resolved label is `gkLabel` of its bottom-center
anchor against the two centroids. -/
theorem resolve_get? (players goalkeepers : List Det) (i : ℕ) (g : Det)
    (hg : goalkeepers[i]? = some g) :
    (resolve_goalkeepers_team_id players goalkeepers)[i]?
      = some (gkLabel (teamCentroid players 0) (teamCentroid players 1)
          (bottomCenter g.box)) := by
  simp only [resolve_goalkeepers_team_id, List.getElem?_map, hg, Option.map_some']

/-- Counterexample to C1.  One frame where team 0 has a labeled player and
team 1 has none (so exactly one team is empty and the sole labeled team is
team 0): resolution neither fails nor assigns the goalkeeper the sole team's
label 0 — it silently returns label 1, the label of the very team that has no
players.  (`numpy` takes the mean of the empty selection as NaN, every
comparison with NaN is false, and the `else` branch label 1 wins.) -/
theorem resolve_gk_undefined_centroid_cex :
    resolve_goalkeepers_team_id [⟨⟨0, 0, 0, 0⟩, 0⟩] [⟨⟨0, 0, 0, 0⟩, GOALKEEPER_ID⟩]
        = [1] ∧
    teamCentroid [⟨⟨0, 0, 0, 0⟩, 0⟩] 1 = none ∧
    teamCentroid [⟨⟨0, 0, 0, 0⟩, 0⟩] 0 ≠ none := by
  refine ⟨?_, rfl, ?_⟩
  · simp [resolve_goalkeepers_team_id, teamCentroid, meanPt, gkLabel, ltNan]
  · simp [teamCentroid, meanPt]

/-- C1 as amended.  Whenever a team centroid is undefined (that team has no
labeled players this frame), `resolve_goalkeepers_team_id` does not fail and
assigns label 1 to every goalkeeper, whichever team is the empty one: this
coincides with the remaining team only when team 0 is the empty one, and
silently mislabels every goalkeeper to the empty team when team 1 is. -/
theorem resolve_gk_undefined_centroid (players goalkeepers : List Det)
    (h : teamCentroid players 0 = none ∨ teamCentroid players 1 = none) :
    resolve_goalkeepers_team_id players goalkeepers
      = List.replicate goalkeepers.length 1 := by
  have hlab : ∀ g : Det,
      gkLabel (teamCentroid players 0) (teamCentroid players 1)
        (bottomCenter g.box) = 1 := by
    intro g
    rcases h with h | h
    · simp [gkLabel, h, ltNan]
    · cases h0 : teamCentroid players 0 <;> simp [gkLabel, h, h0, ltNan]
  simp only [resolve_goalkeepers_team_id]
  rw [show (fun g : Det => gkLabel (teamCentroid players 0) (teamCentroid players 1)
      (bottomCenter g.box)) = fun _ => 1 from funext hlab]
  simp

/-- Witness for the amended C1: a frame with one team-0 player and no team-1
player; the (sole) goalkeeper is labeled 1. -/
theorem resolve_gk_undefined_centroid_witness :
    (teamCentroid [(⟨⟨0, 0, 0, 0⟩, 0⟩ : Det)] 0 = none ∨
      teamCentroid [(⟨⟨0, 0, 0, 0⟩, 0⟩ : Det)] 1 = none) ∧
    resolve_goalkeepers_team_id [⟨⟨0, 0, 0, 0⟩, 0⟩] [⟨⟨4, 0, 6, 2⟩, GOALKEEPER_ID⟩]
      = List.replicate 1 1 :=
  ⟨Or.inr rfl,
   resolve_gk_undefined_centroid [⟨⟨0, 0, 0, 0⟩, 0⟩] [⟨⟨4, 0, 6, 2⟩, GOALKEEPER_ID⟩]
     (Or.inr rfl)⟩

/-- C6.  When both teams have labeled players (both centroids defined), a
goalkeeper strictly nearer to team 0's centroid resolves to label 0, and one
strictly nearer to team 1's centroid resolves to label 1 (distances compared
through their squares, which preserves strict order). -/
theorem resolve_gk_nearest (players goalkeepers : List Det) (c0 c1 : Pt)
    (h0 : teamCentroid players 0 = some c0)
    (h1 : teamCentroid players 1 = some c1)
    (i : ℕ) (g : Det) (hg : goalkeepers[i]? = some g) :
    (dist2 (bottomCenter g.box) c0 < dist2 (bottomCenter g.box) c1 →
      (resolve_goalkeepers_team_id players goalkeepers)[i]? = some 0) ∧
    (dist2 (bottomCenter g.box) c1 < dist2 (bottomCenter g.box) c0 →
      (resolve_goalkeepers_team_id players goalkeepers)[i]? = some 1) := by
  have hmap := resolve_get? players goalkeepers i g hg
  rw [h0, h1] at hmap
  constructor
  · intro hlt
    rw [hmap]
    simp [gkLabel, ltNan, hlt]
  · intro hlt
    rw [hmap]
    simp [gkLabel, ltNan, lt_asymm hlt]

/-- Witness for C6: the spec's concrete scenario — centroids `(0,0)` (team 0)
and `(100,100)` (team 1); the goalkeeper anchored at `(5,5)` resolves to 0 and
the one anchored at `(95,95)` to 1. -/
theorem resolve_gk_nearest_witness :
    (resolve_goalkeepers_team_id
        [⟨⟨0, 0, 0, 0⟩, 0⟩, ⟨⟨100, 100, 100, 100⟩, 1⟩]
        [⟨⟨5, 5, 5, 5⟩, GOALKEEPER_ID⟩, ⟨⟨95, 95, 95, 95⟩, GOALKEEPER_ID⟩])[0]?
      = some 0 ∧
    (resolve_goalkeepers_team_id
        [⟨⟨0, 0, 0, 0⟩, 0⟩, ⟨⟨100, 100, 100, 100⟩, 1⟩]
        [⟨⟨5, 5, 5, 5⟩, GOALKEEPER_ID⟩, ⟨⟨95, 95, 95, 95⟩, GOALKEEPER_ID⟩])[1]?
      = some 1 :=
  ⟨(resolve_gk_nearest
      [⟨⟨0, 0, 0, 0⟩, 0⟩, ⟨⟨100, 100, 100, 100⟩, 1⟩]
      [⟨⟨5, 5, 5, 5⟩, GOALKEEPER_ID⟩, ⟨⟨95, 95, 95, 95⟩, GOALKEEPER_ID⟩]
      (0, 0) (100, 100)
      (by norm_num [teamCentroid, meanPt, bottomCenter, List.filter])
      (by norm_num [teamCentroid, meanPt, bottomCenter, List.filter])
      0 ⟨⟨5, 5, 5, 5⟩, GOALKEEPER_ID⟩ rfl).1
    (by norm_num [dist2, bottomCenter]),
   (resolve_gk_nearest
      [⟨⟨0, 0, 0, 0⟩, 0⟩, ⟨⟨100, 100, 100, 100⟩, 1⟩]
      [⟨⟨5, 5, 5, 5⟩, GOALKEEPER_ID⟩, ⟨⟨95, 95, 95, 95⟩, GOALKEEPER_ID⟩]
      (0, 0) (100, 100)
      (by norm_num [teamCentroid, meanPt, bottomCenter, List.filter])
      (by norm_num [teamCentroid, meanPt, bottomCenter, List.filter])
      1 ⟨⟨95, 95, 95, 95⟩, GOALKEEPER_ID⟩ rfl).2
    (by norm_num [dist2, bottomCenter])⟩

/-- C10.  Tie-breaking is implicit in `0 if dist_0 < dist_1 else 1`: a
goalkeeper exactly equidistant from both defined centroids gets label 1,
since the strict comparison against team 0 fails. -/
theorem resolve_gk_tie_label_one (players goalkeepers : List Det) (c0 c1 : Pt)
    (h0 : teamCentroid players 0 = some c0)
    (h1 : teamCentroid players 1 = some c1)
    (i : ℕ) (g : Det) (hg : goalkeepers[i]? = some g)
    (heq : dist2 (bottomCenter g.box) c0 = dist2 (bottomCenter g.box) c1) :
    (resolve_goalkeepers_team_id players goalkeepers)[i]? = some 1 := by
  have hmap := resolve_get? players goalkeepers i g hg
  rw [h0, h1] at hmap
  rw [hmap]
  simp [gkLabel, ltNan, heq]

/-- Witness for C10: centroids `(0,0)` and `(2,0)`, goalkeeper anchored at
`(1,0)` — equidistant — resolves to label 1. -/
theorem resolve_gk_tie_label_one_witness :
    (resolve_goalkeepers_team_id [⟨⟨0, 0, 0, 0⟩, 0⟩, ⟨⟨2, 0, 2, 0⟩, 1⟩]
        [⟨⟨1, 0, 1, 0⟩, GOALKEEPER_ID⟩])[0]? = some 1 :=
  resolve_gk_tie_label_one [⟨⟨0, 0, 0, 0⟩, 0⟩, ⟨⟨2, 0, 2, 0⟩, 1⟩]
    [⟨⟨1, 0, 1, 0⟩, GOALKEEPER_ID⟩] (0, 0) (2, 0)
    (by norm_num [teamCentroid, meanPt, bottomCenter, List.filter])
    (by norm_num [teamCentroid, meanPt, bottomCenter, List.filter])
    0 ⟨⟨1, 0, 1, 0⟩, GOALKEEPER_ID⟩ rfl
    (by norm_num [dist2, bottomCenter])

/-! ## Claims C2, C3: what the orchestrator hands each stage -/

/-- Counterexample to C2.  A frame whose (nonempty) general detections hold a
ball-class detection: `process_video` hands `tracker.update_with_detections`
the full set, ball included — the set given to identity tracking is not
ball-free. -/
theorem tracker_handoff_contains_ball_cex :
    (frameStep ⟨id, fun _ => [], id, none⟩ initStats (BallTracker.mk0 30)
        [⟨⟨0, 0, 1, 1⟩, BALL_ID⟩]).handedToTracker
      = some [⟨⟨0, 0, 1, 1⟩, BALL_ID⟩] ∧
    (⟨⟨0, 0, 1, 1⟩, BALL_ID⟩ : Det).classId = BALL_ID :=
  ⟨rfl, rfl⟩

/-- C2 as amended.  For every frame with at least one detection, the
orchestrator hands the Object Tracker the full, unfiltered detection set of
the frame — ball-class detections included (no exclusion of the ball happens
before identity tracking; the ball class is only separated out afterwards). -/
theorem tracker_handoff_full_set (co : Collaborators) (st : Stats)
    (bt : BallTrackerState) (dets : List Det) (hne : dets ≠ []) :
    (frameStep co st bt dets).handedToTracker = some dets := by
  match dets with
  | [] => exact absurd rfl hne
  | d :: ds => rfl

/-- Witness for the amended C2: a two-detection frame (one ball, one player)
is handed over whole. -/
theorem tracker_handoff_full_set_witness :
    (frameStep ⟨id, fun _ => [], id, none⟩ initStats (BallTracker.mk0 30)
        [⟨⟨0, 0, 1, 1⟩, BALL_ID⟩, ⟨⟨3, 3, 4, 4⟩, PLAYER_ID⟩]).handedToTracker
      = some [⟨⟨0, 0, 1, 1⟩, BALL_ID⟩, ⟨⟨3, 3, 4, 4⟩, PLAYER_ID⟩] :=
  tracker_handoff_full_set ⟨id, fun _ => [], id, none⟩ initStats (BallTracker.mk0 30)
    [⟨⟨0, 0, 1, 1⟩, BALL_ID⟩, ⟨⟨3, 3, 4, 4⟩, PLAYER_ID⟩] (by simp)

/-- Counterexample to C3.  A frame with zero general detections, while the
specialized ball detector would report a ball: the `len(detections) == 0`
early `continue` skips the ball stage entirely — no ball detections are
handed to the Ball Tracker, the ball counter is not incremented (it stays 0
even though the specialized detector had a ball), and the tracker state is
untouched — rather than the stage running on empty collections. -/
theorem empty_frame_skips_ball_stage_cex :
    (frameStep ⟨id, fun _ => [], id, some (Except.ok [⟨⟨0, 0, 1, 1⟩, BALL_ID⟩])⟩
        initStats (BallTracker.mk0 30) []).ballDetectionsUsed = none ∧
    (frameStep ⟨id, fun _ => [], id, some (Except.ok [⟨⟨0, 0, 1, 1⟩, BALL_ID⟩])⟩
        initStats (BallTracker.mk0 30) []).stats.detecciones_balon = 0 ∧
    (frameStep ⟨id, fun _ => [], id, some (Except.ok [⟨⟨0, 0, 1, 1⟩, BALL_ID⟩])⟩
        initStats (BallTracker.mk0 30) []).ballState = BallTracker.mk0 30 :=
  ⟨rfl, rfl, rfl⟩

/-- C3 as amended.  A frame whose general detection set is empty
short-circuits: only `frames_procesados` is incremented, the raw frame is
written, and every later stage — ball detection and tracking included — is
skipped, with the tracker states and all other counters unchanged.  The
stages run, in order, exactly on the frames with at least one general
detection (for those, the tracker is invoked and some ball-detection list,
possibly empty, reaches the Ball Tracker). -/
theorem empty_frame_short_circuit (co : Collaborators) (st : Stats)
    (bt : BallTrackerState) :
    (frameStep co st bt [] =
      { handedToTracker := none, ballDetectionsUsed := none, ballPosition := none,
        stats := { st with frames_procesados := st.frames_procesados + 1 },
        ballState := bt }) ∧
    (∀ dets : List Det, dets ≠ [] →
      (frameStep co st bt dets).handedToTracker = some dets ∧
      ((frameStep co st bt dets).ballDetectionsUsed).isSome = true) := by
  refine ⟨rfl, ?_⟩
  intro dets hne
  match dets with
  | [] => exact absurd rfl hne
  | d :: ds => exact ⟨rfl, rfl⟩

/-- Witness for the amended C3 at a one-player frame. -/
theorem empty_frame_short_circuit_witness :
    (frameStep ⟨id, fun _ => [], id, none⟩ initStats (BallTracker.mk0 30)
        [⟨⟨3, 3, 4, 4⟩, PLAYER_ID⟩]).handedToTracker
      = some [⟨⟨3, 3, 4, 4⟩, PLAYER_ID⟩] ∧
    ((frameStep ⟨id, fun _ => [], id, none⟩ initStats (BallTracker.mk0 30)
        [⟨⟨3, 3, 4, 4⟩, PLAYER_ID⟩]).ballDetectionsUsed).isSome = true :=
  (empty_frame_short_circuit ⟨id, fun _ => [], id, none⟩ initStats
    (BallTracker.mk0 30)).2 [⟨⟨3, 3, 4, 4⟩, PLAYER_ID⟩] (by simp)

/-! ## Claim C9: ball-detector fallback -/

/-- C9.  For every frame that reaches the ball stage: when the specialized
ball detector's prediction raises, the bare `except:` falls back to the
ball-class subset of the (tracker-augmented) general detections of the frame;
when the detector is absent, the same ball-class subset is used with each box
padded by 10 px.  In both cases no failure propagates — the Ball Tracker runs
on exactly that fallback set and the pipeline continues.  Padding changes
neither the class nor the geometric center of a detection. -/
theorem ball_detector_fallback (co : Collaborators) (st : Stats)
    (bt : BallTrackerState) (dets : List Det) (hne : dets ≠ []) :
    (co.ballYolo = some (Except.error ()) →
      (frameStep co st bt dets).ballDetectionsUsed =
          some ((co.trackerUpdate dets).filter (fun d => d.classId = BALL_ID)) ∧
      (frameStep co st bt dets).ballPosition =
          (BallTracker.update bt
            ((co.trackerUpdate dets).filter (fun d => d.classId = BALL_ID))).1) ∧
    (co.ballYolo = none →
      (frameStep co st bt dets).ballDetectionsUsed =
          some (((co.trackerUpdate dets).filter (fun d => d.classId = BALL_ID)).map
            (padDet 10)) ∧
      (frameStep co st bt dets).ballPosition =
          (BallTracker.update bt
            (((co.trackerUpdate dets).filter (fun d => d.classId = BALL_ID)).map
              (padDet 10))).1) ∧
    (∀ d : Det, (padDet 10 d).classId = d.classId ∧
      centerAnchor (padDet 10 d).box = centerAnchor d.box) := by
  refine ⟨?_, ?_, ?_⟩
  · intro h
    match dets with
    | [] => exact absurd rfl hne
    | d :: ds => constructor <;> simp [frameStep, h]
  · intro h
    match dets with
    | [] => exact absurd rfl hne
    | d :: ds =>
        have hif : ∀ bd : List Det,
            (if 0 < bd.length then bd.map (padDet 10) else bd) = bd.map (padDet 10) := by
          intro bd
          match bd with
          | [] => rfl
          | b :: bs => simp
        constructor <;> simp [frameStep, h, hif]
  · intro d
    refine ⟨rfl, ?_⟩
    simp only [padDet, padBox, centerAnchor, Prod.mk.injEq]
    exact ⟨by ring, by ring⟩

/-- Witness for C9: a ball-plus-player frame, first with a raising
specialized detector (identity tracker), then with the detector absent, plus
the padding facts at a concrete detection. -/
theorem ball_detector_fallback_witness :
    ((frameStep ⟨id, fun _ => [], id, some (Except.error ())⟩ initStats
        (BallTracker.mk0 30)
        [⟨⟨0, 0, 2, 2⟩, BALL_ID⟩, ⟨⟨3, 3, 4, 4⟩, PLAYER_ID⟩]).ballDetectionsUsed =
      some ([⟨⟨0, 0, 2, 2⟩, BALL_ID⟩, ⟨⟨3, 3, 4, 4⟩, PLAYER_ID⟩].filter
        (fun d => d.classId = BALL_ID)) ∧
      (frameStep ⟨id, fun _ => [], id, some (Except.error ())⟩ initStats
        (BallTracker.mk0 30)
        [⟨⟨0, 0, 2, 2⟩, BALL_ID⟩, ⟨⟨3, 3, 4, 4⟩, PLAYER_ID⟩]).ballPosition =
      (BallTracker.update (BallTracker.mk0 30)
        ([⟨⟨0, 0, 2, 2⟩, BALL_ID⟩, ⟨⟨3, 3, 4, 4⟩, PLAYER_ID⟩].filter
          (fun d => d.classId = BALL_ID))).1) ∧
    ((frameStep ⟨id, fun _ => [], id, none⟩ initStats (BallTracker.mk0 30)
        [⟨⟨0, 0, 2, 2⟩, BALL_ID⟩, ⟨⟨3, 3, 4, 4⟩, PLAYER_ID⟩]).ballDetectionsUsed =
      some (([⟨⟨0, 0, 2, 2⟩, BALL_ID⟩, ⟨⟨3, 3, 4, 4⟩, PLAYER_ID⟩].filter
        (fun d => d.classId = BALL_ID)).map (padDet 10)) ∧
      (frameStep ⟨id, fun _ => [], id, none⟩ initStats (BallTracker.mk0 30)
        [⟨⟨0, 0, 2, 2⟩, BALL_ID⟩, ⟨⟨3, 3, 4, 4⟩, PLAYER_ID⟩]).ballPosition =
      (BallTracker.update (BallTracker.mk0 30)
        (([⟨⟨0, 0, 2, 2⟩, BALL_ID⟩, ⟨⟨3, 3, 4, 4⟩, PLAYER_ID⟩].filter
          (fun d => d.classId = BALL_ID)).map (padDet 10))).1) ∧
    ((padDet 10 ⟨⟨0, 0, 2, 2⟩, BALL_ID⟩).classId
        = (⟨⟨0, 0, 2, 2⟩, BALL_ID⟩ : Det).classId ∧
      centerAnchor (padDet 10 ⟨⟨0, 0, 2, 2⟩, BALL_ID⟩).box
        = centerAnchor (⟨⟨0, 0, 2, 2⟩, BALL_ID⟩ : Det).box) :=
  ⟨(ball_detector_fallback ⟨id, fun _ => [], id, some (Except.error ())⟩ initStats
      (BallTracker.mk0 30) [⟨⟨0, 0, 2, 2⟩, BALL_ID⟩, ⟨⟨3, 3, 4, 4⟩, PLAYER_ID⟩]
      (by simp)).1 rfl,
   (ball_detector_fallback ⟨id, fun _ => [], id, none⟩ initStats
      (BallTracker.mk0 30) [⟨⟨0, 0, 2, 2⟩, BALL_ID⟩, ⟨⟨3, 3, 4, 4⟩, PLAYER_ID⟩]
      (by simp)).2.1 rfl,
   (ball_detector_fallback ⟨id, fun _ => [], id, none⟩ initStats
      (BallTracker.mk0 30) [⟨⟨0, 0, 2, 2⟩, BALL_ID⟩, ⟨⟨3, 3, 4, 4⟩, PLAYER_ID⟩]
      (by simp)).2.2 (⟨⟨0, 0, 2, 2⟩, BALL_ID⟩ : Det)⟩

/-! ## Claims C7, C8: crop collection and classifier training -/

/-- Counterexample to C7.  With `max_crops = 2` and a sampled frame holding
three player detections, the collected total is 3 > 2: the cap check
`len(crops) >= max_crops` runs only after a whole frame's crops are added, so
the total exceeds `max_crops`. -/
theorem crop_cap_exceeded_cex :
    (collectCrops id 2
        [[⟨⟨0, 0, 1, 1⟩, PLAYER_ID⟩, ⟨⟨1, 1, 2, 2⟩, PLAYER_ID⟩,
          ⟨⟨2, 2, 3, 3⟩, PLAYER_ID⟩]] []).length = 3 ∧ 2 < 3 :=
  ⟨rfl, by decide⟩

/-- C7 as amended.  Crop collection is frame-granular: it stops early at the
end of the first sampled frame where the running total reaches `max_crops` —
the remaining frames contribute nothing — but the final total may exceed
`max_crops`; it is bounded by `max_crops + B` (strictly) for any bound `B` on
the per-frame player-crop count, since every frame starts below the cap. -/
theorem crop_collection_cap (nms : List Det → List Det) (m : ℕ) :
    (∀ f fs acc, m ≤ (acc ++ ((nms f).filter
        (fun d => d.classId = PLAYER_ID)).map (fun d => d.box)).length →
      collectCrops nms m (f :: fs) acc
        = acc ++ ((nms f).filter (fun d => d.classId = PLAYER_ID)).map
            (fun d => d.box)) ∧
    (∀ B frames acc,
      (∀ f ∈ frames, (((nms f).filter (fun d => d.classId = PLAYER_ID)).map
          (fun d => d.box)).length ≤ B) →
      acc.length < m → (collectCrops nms m frames acc).length < m + B) := by
  constructor
  · intro f fs acc h
    simp only [collectCrops]
    rw [if_pos h]
  · intro B frames
    induction frames with
    | nil =>
        intro acc _ hacc
        simpa [collectCrops] using lt_of_lt_of_le hacc (Nat.le_add_right m B)
    | cons f fs ih =>
        intro acc hB hacc
        simp only [collectCrops]
        have h1 : (((nms f).filter (fun d => d.classId = PLAYER_ID)).map
            (fun d => d.box)).length ≤ B := hB f (List.mem_cons_self f fs)
        have hlen : (acc ++ ((nms f).filter (fun d => d.classId = PLAYER_ID)).map
            (fun d => d.box)).length < m + B := by
          rw [List.length_append]
          omega
        by_cases hstop : m ≤ (acc ++ ((nms f).filter
            (fun d => d.classId = PLAYER_ID)).map (fun d => d.box)).length
        · rw [if_pos hstop]
          exact hlen
        · rw [if_neg hstop]
          exact ih _ (fun g hg => hB g (List.mem_cons_of_mem f hg))
            (lt_of_not_le hstop)

/-- Witness for the amended C7: the 3-player frame with cap 2 — a later frame
is ignored (early stop), and the bound `3 < 2 + 3` holds. -/
theorem crop_collection_cap_witness :
    (collectCrops id 2
        [[⟨⟨0, 0, 1, 1⟩, PLAYER_ID⟩, ⟨⟨1, 1, 2, 2⟩, PLAYER_ID⟩,
          ⟨⟨2, 2, 3, 3⟩, PLAYER_ID⟩], [⟨⟨5, 5, 6, 6⟩, PLAYER_ID⟩]] []
      = ([] : List Box) ++ ((([⟨⟨0, 0, 1, 1⟩, PLAYER_ID⟩, ⟨⟨1, 1, 2, 2⟩, PLAYER_ID⟩,
          ⟨⟨2, 2, 3, 3⟩, PLAYER_ID⟩] : List Det).filter
            (fun d => d.classId = PLAYER_ID)).map (fun d => d.box))) ∧
    (collectCrops id 2
        [[⟨⟨0, 0, 1, 1⟩, PLAYER_ID⟩, ⟨⟨1, 1, 2, 2⟩, PLAYER_ID⟩,
          ⟨⟨2, 2, 3, 3⟩, PLAYER_ID⟩]] []).length < 2 + 3 :=
  ⟨(crop_collection_cap id 2).1
      [⟨⟨0, 0, 1, 1⟩, PLAYER_ID⟩, ⟨⟨1, 1, 2, 2⟩, PLAYER_ID⟩,
        ⟨⟨2, 2, 3, 3⟩, PLAYER_ID⟩] [[⟨⟨5, 5, 6, 6⟩, PLAYER_ID⟩]] [] (by decide),
   (crop_collection_cap id 2).2 3
      [[⟨⟨0, 0, 1, 1⟩, PLAYER_ID⟩, ⟨⟨1, 1, 2, 2⟩, PLAYER_ID⟩,
        ⟨⟨2, 2, 3, 3⟩, PLAYER_ID⟩]] [] (by decide) (by decide)⟩

/-- C8.  If crop collection ends with zero eligible crops, the classifier fit
fails explicitly with `TrainingDataInsufficient`, and — since `src/app.py`
runs `create_team_classifier` to completion before calling `process_video` —
the whole analysis returns that error before any frame is processed (no
statistics are ever produced). -/
theorem fit_zero_crops_fails (co : Collaborators) (nms : List Det → List Det)
    (maxCrops : ℕ) (sampleFrames procFrames : List (List Det))
    (h : collectCrops nms maxCrops sampleFrames [] = []) :
    runAnalysis co nms maxCrops sampleFrames procFrames
      = Except.error "TrainingDataInsufficient" := by
  simp [runAnalysis, create_team_classifier, h, TeamClassifier.fit]

/-- Witness for C8: an empty strided sample yields zero crops, and the run
fails with `TrainingDataInsufficient` even though frames were available for
processing. -/
theorem fit_zero_crops_fails_witness :
    collectCrops id 500 ([] : List (List Det)) [] = [] ∧
    runAnalysis ⟨id, fun _ => [], id, none⟩ id 500 []
        [[⟨⟨0, 0, 1, 1⟩, PLAYER_ID⟩]]
      = Except.error "TrainingDataInsufficient" :=
  ⟨rfl, fit_zero_crops_fails ⟨id, fun _ => [], id, none⟩ id 500 []
    [[⟨⟨0, 0, 1, 1⟩, PLAYER_ID⟩]] rfl⟩
